import Mathlib

/-
Verification of the motor-control core of the Open-Star-Tracker repository
(src/tracker/motor_control.py), shallowly embedded in Lean.

Modelling conventions:
* Python integers are ℤ; Python `%` on integers with a positive modulus is
  `Int.emod` (`%` on ℤ), and `int(a / b)` (float true division followed by
  truncation toward zero) is `Int.tdiv a b`, which is exact whenever the float
  division is exact (in particular for the power-of-two denominators used by
  the microstep-mode setter).
* `gearRatio` is modelled at the integer instances used by the claims
  (`track.py` constructs both motors with the default `gearRatio = 1`, a
  Python int, so `_units` stays an int); the float-`gearRatio` behaviour of
  `step()` is modelled separately over ℚ (`stepUnitsQ`), where Python float
  arithmetic is exact for the dyadic values evaluated.
* GPIO side effects are recorded as an explicit event list; a raised Python
  exception is `Except.error` (the raise aborts the method before any state
  mutation or GPIO output that textually follows it, and the ones that
  precede it are recorded in the event list of the `.ok` branch only).
-/

/-- Embedding of `closestLoopMovement(currPos, newPos, loopSize)`
(motor_control.py lines 13-30) at integer arguments.
`currPos %= loopSize; newPos %= loopSize; if equal return 0;
upper = lower = newPos; if newPos < currPos: upper += loopSize else lower -= loopSize;
return (lower - currPos) if (currPos - lower) < (upper - currPos) else (upper - currPos)`. -/
def closestLoopMovement (currPos newPos loopSize : ℤ) : ℤ :=
  let c := currPos % loopSize
  let n := newPos % loopSize
  if c = n then 0
  else
    let upper := if n < c then n + loopSize else n
    let lower := if n < c then n else n - loopSize
    if c - lower < upper - c then lower - c else upper - c

/-- A GPIO output call issued by the controller (sim_GPIO.LOW = false, HIGH = true). -/
inductive GpioEvent where
  | msPins (ms1 ms2 : Bool)
  | dirPin (level : Bool)
  deriving DecidableEq

/-- Python exceptions raised by the embedded methods. -/
inductive PyErr where
  | keyError
  | valueError
  | typeError
  deriving DecidableEq

/-- Embedding of the `MSTEP_MODES` dict (motor_control.py lines 44-49):
mode 1 ↦ (LOW, LOW), 2 ↦ (HIGH, LOW), 4 ↦ (LOW, HIGH), 8 ↦ (HIGH, HIGH);
`none` models a KeyError on lookup. -/
def MSTEP_MODES (m : ℤ) : Option (Bool × Bool) :=
  if m = 1 then some (false, false)
  else if m = 2 then some (true, false)
  else if m = 4 then some (false, true)
  else if m = 8 then some (true, true)
  else none

/-- Mutable and construction-time state of a `MotorController`
(motor_control.py lines 63-71): `_units`, `_mstepMode`, `_dir`,
`STEPS_PER_REV`, and the gear ratio (at its integer instances; `track.py`
uses the default `gearRatio = 1`). Pins and name are opaque I/O data. -/
structure MotorState where
  units : ℤ
  mstepMode : ℤ
  dir : ℤ
  stepsPerRev : ℤ
  gearing : ℤ
  deriving DecidableEq

/-- `__init__` (lines 63-66): `_units = 0`, `_mstepMode = 1`, `_dir = 1`. -/
def initState (stepsPerRev gr : ℤ) : MotorState :=
  { units := 0, mstepMode := 1, dir := 1, stepsPerRev := stepsPerRev, gearing := gr }

/-- The loop size `STEPS_PER_REV * _mstepMode * _gearRatio` used by `step()`
(line 158) and by the spec's `units` domain. -/
def unitsLoopSize (s : MotorState) : ℤ :=
  s.stepsPerRev * s.mstepMode * s.gearing

/-- The spec invariant `0 <= units < stepsPerRev * mstepMode * gearRatio`. -/
def unitsInvariant (s : MotorState) : Prop :=
  0 ≤ s.units ∧ s.units < unitsLoopSize s

/-- `degreesToMsteps(deg, useGearOut)` (lines 87-95) at integer degrees:
`int((deg * STEPS_PER_REV * _mstepMode [* _gearRatio]) / 360)`. -/
def degreesToMsteps (s : MotorState) (deg : ℤ) (useGearOut : Bool) : ℤ :=
  if useGearOut then Int.tdiv (deg * s.stepsPerRev * s.mstepMode * s.gearing) 360
  else Int.tdiv (deg * s.stepsPerRev * s.mstepMode) 360

/-- The `mstepMode` property setter (lines 121-135):
look up `MSTEP_MODES[newMode]` (KeyError aborts before any GPIO output or
mutation), output the two mode pins, snap `_units` with
`closestLoopMovement(_units, _units + (newMode - _units % newMode), newMode)`,
rescale with `int((_units * newMode) / _mstepMode)`, commit `_mstepMode`. -/
def setMstepMode (s : MotorState) (newMode : ℤ) : Except PyErr (MotorState × List GpioEvent) :=
  match MSTEP_MODES newMode with
  | none => .error .keyError
  | some newState =>
    let u1 := s.units + closestLoopMovement s.units (s.units + (newMode - s.units % newMode)) newMode
    let u2 := Int.tdiv (u1 * newMode) s.mstepMode
    .ok ({ s with units := u2, mstepMode := newMode }, [.msPins newState.1 newState.2])

/-- Python `str.upper()` for the ASCII strings used here. -/
def pyUpper (s : String) : String := ⟨s.data.map Char.toUpper⟩

/-- The `direction` property setter (lines 142-151): `"CW"` (case-insensitive)
outputs LOW on the dir pin and sets `_dir = 1`; `"CC"` outputs HIGH and sets
`_dir = -1`; anything else raises ValueError with no GPIO output and no
mutation. The source has no early return for an unchanged direction. -/
def setDirection (s : MotorState) (newDir : String) : Except PyErr (MotorState × List GpioEvent) :=
  if pyUpper newDir = "CW" then .ok ({ s with dir := 1 }, [.dirPin false])
  else if pyUpper newDir = "CC" then .ok ({ s with dir := -1 }, [.dirPin true])
  else .error .valueError

/-- `step()` (lines 153-159): after the step-pin pulse (pure I/O, elided),
`_units = (_units + _dir) % (STEPS_PER_REV * _mstepMode * _gearRatio)`. -/
def step (s : MotorState) : MotorState :=
  { s with units := (s.units + s.dir) % (s.stepsPerRev * s.mstepMode * s.gearing) }

/-- The `for` loop of `rotateMsteps` (lines 186-193): before each step, an
in-range check against the limit for the travel direction
(CC: `(_units - 1) > ccLimitMstep`, CW: `(_units + 1) < cwLimitMstep`,
a `None` limit is limitless); on failure return False without stepping. -/
def rotateLoop (isCC : Bool) (ccLimitMstep cwLimitMstep : Option ℤ) :
    MotorState → Nat → MotorState × Bool
  | s, 0 => (s, true)
  | s, n + 1 =>
    let inBounds : Bool :=
      if isCC then
        match ccLimitMstep with
        | none => true
        | some l => decide (s.units - 1 > l)
      else
        match cwLimitMstep with
        | none => true
        | some l => decide (s.units + 1 < l)
    if inBounds then rotateLoop isCC ccLimitMstep cwLimitMstep (step s) n
    else (s, false)

/-- `rotateMsteps(msteps, ccLimitMstep, cwLimitMstep)` (lines 161-199):
zero msteps returns True with no actuation; otherwise set the direction from
the sign of `msteps` (`self.direction = newDir`, always a valid value here)
and run the step loop `abs(msteps)` times. -/
def rotateMsteps (s : MotorState) (msteps : ℤ) (ccLimitMstep cwLimitMstep : Option ℤ) :
    MotorState × Bool :=
  if msteps = 0 then (s, true)
  else
    let isCC : Bool := decide (msteps < 0)
    let s1 := { s with dir := if isCC then -1 else 1 }
    rotateLoop isCC ccLimitMstep cwLimitMstep s1 msteps.natAbs

/-- `rotate(deg, ccLimit, cwLimit, useGearOut)` (lines 201-226).
Lines 225-226 compute BOTH limit arguments with the guard
`None if ccLimit is None else self.degreesToMsteps(...)`:
the cw argument also tests `ccLimit`, so when `ccLimit is None` the cw limit
is passed as None, and when `ccLimit` is given but `cwLimit is None`,
`degreesToMsteps(None, ...)` raises TypeError (`None * int`). -/
def rotate (s : MotorState) (deg : ℤ) (ccLimit cwLimit : Option ℤ) (useGearOut : Bool) :
    Except PyErr (MotorState × Bool) :=
  let relMsteps := degreesToMsteps s deg useGearOut
  if relMsteps = 0 then .ok (s, true)
  else
    match ccLimit with
    | none => .ok (rotateMsteps s relMsteps none none)
    | some cc =>
      match cwLimit with
      | none => .error .typeError
      | some cw =>
        .ok (rotateMsteps s relMsteps
              (some (degreesToMsteps s cc useGearOut))
              (some (degreesToMsteps s cw useGearOut)))

/-- `rotateTo(targetDeg, ccLimit, cwLimit, useGearOut)` (lines 228-254):
relative msteps from `closestLoopMovement(_units, degreesToMsteps(targetDeg),
int(STEPS_PER_REV * _mstepMode * _gearRatio))`; the limit arguments
(lines 253-254) have the same `ccLimit is None` guard in both positions as
`rotate`. -/
def rotateTo (s : MotorState) (targetDeg : ℤ) (ccLimit cwLimit : Option ℤ) (useGearOut : Bool) :
    Except PyErr (MotorState × Bool) :=
  let relMsteps := closestLoopMovement s.units (degreesToMsteps s targetDeg useGearOut)
      (s.stepsPerRev * s.mstepMode * s.gearing)
  if relMsteps = 0 then .ok (s, true)
  else
    match ccLimit with
    | none => .ok (rotateMsteps s relMsteps none none)
    | some cc =>
      match cwLimit with
      | none => .error .typeError
      | some cw =>
        .ok (rotateMsteps s relMsteps
              (some (degreesToMsteps s cc useGearOut))
              (some (degreesToMsteps s cw useGearOut)))

/-- A state-mutating operation on one controller, for reachability traces. -/
inductive Op where
  | doStep
  | setMode (m : ℤ)
  | setDir (d : String)

/-- Apply one operation; a raised exception leaves the state unchanged. -/
def runOp (s : MotorState) : Op → MotorState
  | .doStep => step s
  | .setMode m =>
    match setMstepMode s m with
    | .ok (s', _) => s'
    | .error _ => s
  | .setDir d =>
    match setDirection s d with
    | .ok (s', _) => s'
    | .error _ => s

/-- Run a sequence of operations from a state. -/
def run (s : MotorState) (ops : List Op) : MotorState := ops.foldl runOp s

/-- Python float `x % y` for `y > 0` over exact rationals:
`x - y * floor(x / y)` (Python float `%` takes the sign of the divisor).
Exact for the dyadic values evaluated here. -/
def pymodQ (x y : ℚ) : ℚ := x - y * ⌊x / y⌋

/-- The `_units` update of `step()` (line 158) when `_gearRatio` is a Python
float: `(_units + _dir) % (STEPS_PER_REV * _mstepMode * _gearRatio)` over ℚ.
For the dyadic rational values evaluated here, Python float arithmetic is
exact, so the ℚ computation models it exactly. -/
def stepUnitsQ (units dir stepsPerRev mMode gr : ℚ) : ℚ :=
  pymodQ (units + dir) (stepsPerRev * mMode * gr)

deriving instance DecidableEq for Except

/-- Helper: a successful `MSTEP_MODES` lookup means the mode is positive. -/
theorem MSTEP_MODES_pos {m : ℤ} {st : Bool × Bool} (h : MSTEP_MODES m = some st) : 0 < m := by
  unfold MSTEP_MODES at h
  split_ifs at h with h1 h2 h3 h4 <;> omega

/-- C1: for every `loopSize > 0` and all `current, target` in `[0, loopSize)`,
the movement `d = closestLoopMovement(current, target, loopSize)` satisfies
`|d| <= loopSize / 2` and `(current + d) mod loopSize == target`. -/
theorem thm_C1 (loopSize current target : ℤ) (hL : 0 < loopSize)
    (hc0 : 0 ≤ current) (hc1 : current < loopSize)
    (ht0 : 0 ≤ target) (ht1 : target < loopSize) :
    |closestLoopMovement current target loopSize| ≤ loopSize / 2 ∧
    (current + closestLoopMovement current target loopSize) % loopSize = target := by
  have hc : current % loopSize = current := Int.emod_eq_of_lt hc0 hc1
  have ht : target % loopSize = target := Int.emod_eq_of_lt ht0 ht1
  simp only [closestLoopMovement, hc, ht]
  split_ifs with h1 h2 h3 h4
  · -- current == target: movement 0
    refine ⟨by simp [abs_of_nonneg]; positivity, ?_⟩
    rw [add_zero, hc]; exact h1
  · -- target < current, closer going down (counter-clockwise)
    refine ⟨by rw [abs_of_nonpos (by omega)]; omega, ?_⟩
    rw [show current + (target - current) = target from by ring, ht]
  · -- target < current, closer going up past zero (clockwise)
    refine ⟨by rw [abs_of_nonneg (by omega)]; omega, ?_⟩
    rw [show current + (target + loopSize - current) = target + loopSize * 1 from by ring,
      Int.add_mul_emod_self_left, ht]
  · -- current < target, closer going down past zero (counter-clockwise)
    refine ⟨by rw [abs_of_nonpos (by omega)]; omega, ?_⟩
    rw [show current + (target - loopSize - current) = target + loopSize * (-1) from by ring,
      Int.add_mul_emod_self_left, ht]
  · -- current < target, closer going up (clockwise)
    refine ⟨by rw [abs_of_nonneg (by omega)]; omega, ?_⟩
    rw [show current + (target - current) = target from by ring, ht]

/-- C1 witness: at `loopSize = 10`, `current = 3`, `target = 9`. -/
theorem thm_C1_witness :
    |closestLoopMovement 3 9 10| ≤ 10 / 2 ∧ (3 + closestLoopMovement 3 9 10) % 10 = 9 :=
  thm_C1 10 3 9 (by decide) (by decide) (by decide) (by decide) (by decide)

/-- C10: for every even `loopSize = 2 * k > 0` and every `current` whose
`target` is exactly antipodal, `closestLoopMovement` resolves the tie to the
positive (clockwise) movement `+loopSize / 2 = k`. -/
theorem thm_C10 (k current target : ℤ) (hk : 0 < k)
    (hc0 : 0 ≤ current) (hc1 : current < 2 * k)
    (ht : target = (current + k) % (2 * k)) :
    closestLoopMovement current target (2 * k) = k := by
  have hc : current % (2 * k) = current := Int.emod_eq_of_lt hc0 hc1
  rcases lt_or_le current k with h | h
  · have ht' : target = current + k := by
      rw [ht]; exact Int.emod_eq_of_lt (by omega) (by omega)
    subst ht'
    have hn : (current + k) % (2 * k) = current + k := Int.emod_eq_of_lt (by omega) (by omega)
    simp only [closestLoopMovement, hc, hn]
    split_ifs <;> omega
  · have ht' : target = current - k := by
      rw [ht, show current + k = current - k + 2 * k * 1 from by ring,
        Int.add_mul_emod_self_left]
      exact Int.emod_eq_of_lt (by omega) (by omega)
    subst ht'
    have hn : (current - k) % (2 * k) = current - k := Int.emod_eq_of_lt (by omega) (by omega)
    simp only [closestLoopMovement, hc, hn]
    split_ifs <;> omega

/-- C10 witness: loop of size 4, from 0 to the antipode 2: movement +2. -/
theorem thm_C10_witness : closestLoopMovement 0 2 (2 * 2) = 2 :=
  thm_C10 2 0 2 (by decide) (by decide) (by decide) (by decide)

/-- C2 (code bug): the invariant `0 <= units < stepsPerRev * mstepMode * gearRatio`
is violated by a reachable microstep-mode change. With `stepsPerRev = 7`,
`gearRatio = 1`, after 6 clockwise steps (`units = 6`) a mode change to 8
snaps `units` up to 8 and rescales it to 64, while the loop size is
`7 * 8 * 1 = 56`: the setter never re-normalizes modulo the loop size. -/
theorem thm_C2 :
    (run (initState 7 1) (List.replicate 6 Op.doStep ++ [Op.setMode 8])).units = 64 ∧
    ¬ unitsInvariant (run (initState 7 1) (List.replicate 6 Op.doStep ++ [Op.setMode 8])) := by
  refine ⟨by decide, ?_⟩
  simp only [unitsInvariant, unitsLoopSize]
  decide

/-- C3 (code bug): with `stepsPerRev = 200`, mode 1, `gearRatio = 1`,
`units = 49`, the command `rotate(5, ccLimit=None, cwLimit=90)` does NOT halt
at `units = 50` with a failure: because line 226 guards the cw limit argument
with `ccLimit is None`, the limit is dropped, the motor steps twice to
`units = 51` and the call reports success. -/
theorem thm_C3 :
    rotate (MotorState.mk 49 1 1 200 1) 5 none (some 90) true
      = .ok (MotorState.mk 51 1 1 200 1, true) ∧
    rotate (MotorState.mk 49 1 1 200 1) 5 none (some 90) true
      ≠ .ok (MotorState.mk 50 1 1 200 1, false) := by
  exact ⟨by decide, by decide⟩

/-- C4 (code bug): the two limits are not independently optional.
With only `ccLimit` supplied, `rotate` and `rotateTo` raise TypeError while
converting `cwLimit = None` (lines 226 and 254 guard on `ccLimit` instead of
`cwLimit`); and with only `cwLimit` supplied, clockwise motion is unbounded
(the cw limit argument is passed as None), as the third conjunct shows by
stepping through `cwLimit = 90` to `units = 51`. -/
theorem thm_C4 :
    rotate (MotorState.mk 100 1 1 200 1) (-10) (some 0) none true = .error .typeError ∧
    rotateTo (MotorState.mk 100 1 1 200 1) 270 (some 0) none true = .error .typeError ∧
    rotate (MotorState.mk 49 1 1 200 1) 5 none (some 90) true
      = .ok (MotorState.mk 51 1 1 200 1, true) := by
  exact ⟨by decide, by decide, by decide⟩

/-- C5 counterexample: from `units = 50`, mode 1, setting the microstep mode
to 8 yields `units = 384`, not the claimed `400`: the setter first snaps 50
to the nearest multiple of 8 (`48`), then rescales by 8. -/
theorem cex_C5 :
    (setMstepMode (MotorState.mk 50 1 1 200 1) 8).toOption.map (fun p => p.1.units)
      = some 384 ∧ (384 : ℤ) ≠ 400 := by
  exact ⟨by decide, by decide⟩

/-- C5 (amended): with `mstepMode = 1` and `units = 50`, setting the
microstep mode to 8 results in `mstepMode == 8` and `units == 384`
(50 snaps to 48, the nearest multiple of 8 per lines 131-133, then rescales
by `8 / 1` per line 134). -/
theorem thm_C5 :
    setMstepMode (MotorState.mk 50 1 1 200 1) 8
      = .ok (MotorState.mk 384 8 1 200 1, [GpioEvent.msPins true true]) := by
  decide

/-- C6 counterexample: a reachable state on which applying the mode setter
twice in a row with the same valid mode is not idempotent. From construction
(`stepsPerRev = 200`, `gearRatio = 1`): set mode 8, step 6 times
(`units = 6`), set mode 2 — truncation leaves `units = int(6 * 2 / 8) = 1`,
which is not 2-aligned — and a second `setMode 2` moves `units` to 2. -/
theorem cex_C6 :
    (run (initState 200 1)
      [Op.setMode 8, Op.doStep, Op.doStep, Op.doStep, Op.doStep, Op.doStep, Op.doStep,
       Op.setMode 2]).units = 1 ∧
    (run (initState 200 1)
      [Op.setMode 8, Op.doStep, Op.doStep, Op.doStep, Op.doStep, Op.doStep, Op.doStep,
       Op.setMode 2, Op.setMode 2]).units = 2 ∧
    (1 : ℤ) ≠ 2 := by
  exact ⟨by decide, by decide, by decide⟩

/-- Helper for C6: the mode setter is the identity on a state whose
`units` is already a multiple of the (valid) mode being set again. -/
theorem setMstepMode_aligned (V m d S G : ℤ) (st : Bool × Bool)
    (hm : MSTEP_MODES m = some st) (hdvd : m ∣ V) :
    setMstepMode ⟨V, m, d, S, G⟩ m = .ok (⟨V, m, d, S, G⟩, [.msPins st.1 st.2]) := by
  have hpos : 0 < m := MSTEP_MODES_pos hm
  have hu : V % m = 0 := Int.emod_eq_zero_of_dvd hdvd
  have hn : (V + (m - V % m)) % m = 0 := by
    rw [hu, sub_zero, show V + m = V + m * 1 from by ring,
      Int.add_mul_emod_self_left, hu]
  have hclm : closestLoopMovement V (V + (m - V % m)) m = 0 := by
    simp [closestLoopMovement, hu, hn]
  have hdiv : Int.tdiv (V * m) m = V := Int.mul_tdiv_cancel V (by omega)
  simp only [setMstepMode, hm, hclm, add_zero, hdiv]

/-- C6 (amended): applying the microstep-mode setter twice in a row with the
same valid mode `m` leaves the state and emitted signals of the first
application unchanged PROVIDED the first application left `units` a multiple
of `m`; the truncating rescale `int((units * newMode) / oldMode)` can leave
`units` off the `m`-grid (see the counterexample), in which case the second
call re-snaps `units`. -/
theorem thm_C6 (s s1 : MotorState) (m : ℤ) (ev : List GpioEvent)
    (h1 : setMstepMode s m = .ok (s1, ev))
    (hdvd : m ∣ s1.units) :
    setMstepMode s1 m = .ok (s1, ev) := by
  cases hm : MSTEP_MODES m with
  | none =>
    simp only [setMstepMode, hm] at h1
    exact Except.noConfusion h1
  | some st =>
    simp only [setMstepMode, hm] at h1
    injection h1 with h1'
    injection h1' with hs1 hev
    subst hs1
    subst hev
    exact setMstepMode_aligned _ m _ _ _ st hm hdvd

/-- C6 witness: from `units = 50` in mode 1, `setMode 8` gives the 8-aligned
`units = 384`; a second `setMode 8` returns exactly the same state and
signals. -/
theorem thm_C6_witness :
    setMstepMode (MotorState.mk 384 8 1 200 1) 8
      = .ok (MotorState.mk 384 8 1 200 1, [GpioEvent.msPins true true]) :=
  thm_C6 (MotorState.mk 50 1 1 200 1) (MotorState.mk 384 8 1 200 1) 8
    [GpioEvent.msPins true true] (by decide) ⟨48, by decide⟩

/-- C7: invalid setter arguments are rejected synchronously before any
hardware signal or state mutation. A mode outside `{1,2,4,8}` makes the
`MSTEP_MODES` lookup raise KeyError before the pins are written or `units`
and `mstepMode` touched (lines 123-126); a direction other than "CW"/"CC"
(case-insensitive) raises ValueError in the final `else` with no pin write
and `_dir` untouched (lines 142-151). The `.error` results carry no state
and no events: the controller state is unchanged and no signal is issued. -/
theorem thm_C7 :
    (∀ (s : MotorState) (m : ℤ), m ≠ 1 → m ≠ 2 → m ≠ 4 → m ≠ 8 →
      setMstepMode s m = .error .keyError) ∧
    (∀ (s : MotorState) (newDir : String),
      pyUpper newDir ≠ "CW" → pyUpper newDir ≠ "CC" →
      setDirection s newDir = .error .valueError) := by
  constructor
  · intro s m h1 h2 h4 h8
    simp [setMstepMode, MSTEP_MODES, h1, h2, h4, h8]
  · intro s newDir hcw hcc
    simp [setDirection, hcw, hcc]

/-- C7 witness: mode 3 and direction "up" are both rejected. -/
theorem thm_C7_witness :
    setMstepMode (MotorState.mk 0 1 1 200 1) 3 = .error .keyError ∧
    setDirection (MotorState.mk 0 1 1 200 1) "up" = .error .valueError :=
  ⟨thm_C7.1 (MotorState.mk 0 1 1 200 1) 3 (by decide) (by decide) (by decide) (by decide),
   thm_C7.2 (MotorState.mk 0 1 1 200 1) "up" (by decide) (by decide)⟩

/-- C8 (code bug): `units` does not remain an integer. With
`stepsPerRev = 2`, `mstepMode = 1` and the Python float `gearRatio = 0.75`
(exactly `3/4`), the loop size is `1.5`; starting from `units = 0`, two
clockwise `step()` calls leave `units = 2 % 1.5 = 0.5`, which equals no
integer. (The values `0.75`, `1.5`, `0.5` are dyadic, so Python's float
arithmetic here is exact and the ℚ computation models it exactly.) -/
theorem thm_C8 :
    stepUnitsQ (stepUnitsQ 0 1 2 1 (3 / 4)) 1 2 1 (3 / 4) = 1 / 2 ∧
    ∀ k : ℤ, stepUnitsQ (stepUnitsQ 0 1 2 1 (3 / 4)) 1 2 1 (3 / 4) ≠ (k : ℚ) := by
  have h1 : stepUnitsQ 0 1 2 1 (3 / 4) = 1 := by norm_num [stepUnitsQ, pymodQ]
  have h2 : stepUnitsQ 1 1 2 1 (3 / 4) = 1 / 2 := by norm_num [stepUnitsQ, pymodQ]
  refine ⟨by rw [h1, h2], ?_⟩
  intro k h
  rw [h1, h2] at h
  have hk0 : (0 : ℚ) < (k : ℚ) := by rw [← h]; norm_num
  have hk1 : (k : ℚ) < 1 := by rw [← h]; norm_num
  have hk0' : (0 : ℤ) < k := by exact_mod_cast hk0
  have hk1' : k < 1 := by exact_mod_cast hk1
  omega

/-- C9 counterexample: with the motor already in direction CW (`_dir = 1`),
setting the direction to "CW" again still issues a dir-pin signal — the
setter has no unchanged-direction early return — so the claimed no-op
behaviour (no hardware signal) is false. -/
theorem cex_C9 :
    setDirection (MotorState.mk 0 1 1 200 1) "CW"
      = .ok (MotorState.mk 0 1 1 200 1, [GpioEvent.dirPin false]) ∧
    ([GpioEvent.dirPin false] : List GpioEvent) ≠ [] := by
  exact ⟨by decide, by decide⟩

/-- C9 (amended): setting the direction to any recognized value always
issues exactly one physical direction signal — also when the direction is
unchanged — and sets the cached `_dir` field to the corresponding value
(leaving its value equal when the direction was already the one requested). -/
theorem thm_C9 (s : MotorState) (newDir : String) :
    (pyUpper newDir = "CW" →
      setDirection s newDir = .ok ({ s with dir := 1 }, [GpioEvent.dirPin false])) ∧
    (pyUpper newDir = "CC" →
      setDirection s newDir = .ok ({ s with dir := -1 }, [GpioEvent.dirPin true])) := by
  constructor
  · intro h
    simp [setDirection, h]
  · intro h
    simp [setDirection, h]

/-- C9 witness: lower-case "cw" on a motor already pointing CW: the signal
is issued and the state is unchanged in value. -/
theorem thm_C9_witness :
    setDirection (MotorState.mk 0 1 1 200 1) "cw"
      = .ok (MotorState.mk 0 1 1 200 1, [GpioEvent.dirPin false]) :=
  (thm_C9 (MotorState.mk 0 1 1 200 1) "cw").1 (by decide)
